import Mathlib

/-!
Verification of the lianjia rent-house crawler core: the subdivision decision,
the per-level URL mutators, the partition/pagination walker in
`lianjia/spiders/rent_spider.py`, and the retry middlewares in
`lianjia/middlewares.py`. Python strings are embedded as `String`/`List Char`,
Python integers as `Int`, exceptions (`KeyError`, `IgnoreRequest`) as explicit
error values, and the logger's warning messages as explicit log lists.
-/

/-- Boolean test that the pattern list is an initial segment of the second list
(the core of Python's `str.startswith`, used to embed `re.search`, `str.split`
and the `in` substring test). -/
def starts_with : List Char → List Char → Bool
  | [], _ => true
  | _ :: _, [] => false
  | a :: l1, b :: l2 => a == b && starts_with l1 l2

/-- Python's `pat in s` substring test on character lists. -/
def contains_sub (pat : List Char) : List Char → Bool
  | [] => starts_with pat []
  | c :: s => starts_with pat (c :: s) || contains_sub pat s

/-- One attempted regex match at the head of `s` for a pattern of the shape
`literal` followed by one character from the class `cls` (every regex this
spider uses — `l[0-3]`, `f10050000000[15379]`, `lc20050000000[123]`,
`rp[1-8]` — has this shape).  Returns the matched token and the remainder. -/
def match_at (lit cls s : List Char) : Option (List Char × List Char) :=
  if starts_with lit s then
    match s.drop lit.length with
    | c :: rest => if c ∈ cls then some (lit ++ [c], rest) else none
    | [] => none
  else none

/-- Python's `re.search` for the token patterns above: scans left to right and
returns `(text before the match, matched token, text after the match)` for the
leftmost match, or `none`. -/
def re_search (lit cls : List Char) : List Char → Option (List Char × List Char × List Char)
  | [] => none
  | c :: s =>
    match match_at lit cls (c :: s) with
    | some (tok, rest) => some ([], tok, rest)
    | none =>
      match re_search lit cls s with
      | some (pre, tok, rest) => some (c :: pre, tok, rest)
      | none => none

/-- Python's `s.split(sep, 1)[0]` for a non-empty separator: the text before
the first occurrence of `sep`, or all of `s` when `sep` does not occur. -/
def split_first (sep : List Char) : List Char → List Char
  | [] => []
  | c :: s => if starts_with sep (c :: s) then [] else c :: split_first sep s

/-- Python's `str.strip()` with no argument: remove leading and trailing
whitespace. -/
def str_strip (s : List Char) : List Char :=
  ((s.dropWhile Char.isWhitespace).reverse.dropWhile Char.isWhitespace).reverse

/-- Value of a non-empty all-digit character list, the accepting core of
Python's `int(str)`. -/
def digits_to_nat (l : List Char) : Option Nat :=
  if l ≠ [] ∧ l.all Char.isDigit then
    some (l.foldl (fun acc c => acc * 10 + (c.toNat - '0'.toNat)) 0)
  else none

/-- Python's built-in `int(str)` on the inputs this spider meets: surrounding
whitespace is stripped, an optional single sign precedes the digits, and a
malformed literal raises `ValueError`, embedded as `none`. -/
def python_int (s : String) : Option Int :=
  match str_strip s.data with
  | '+' :: rest => (digits_to_nat rest).map Int.ofNat
  | '-' :: rest => (digits_to_nat rest).map (fun n => -(n : Int))
  | rest => (digits_to_nat rest).map Int.ofNat

/-- `int(value)` where `value` may be `None` (an xpath `.get()` miss):
`int(None)` raises `TypeError`, embedded as `none`. -/
def python_int_of : Option String → Option Int
  | none => none
  | some s => python_int s

/-- Python's `f"{value}"` for an optional string (`None` prints as `"None"`). -/
def value_repr : Option String → String
  | none => "None"
  | some s => s

/-- Python's `range(a, b)` over machine integers, as the list `a, a+1, …, b-1`. -/
def int_range (a b : Int) : List Int :=
  (List.range (b - a).toNat).map (fun k => a + Int.ofNat k)

/-- A `for` loop that yields one element per iteration and can raise: the shape
of the generator loops in `parse_level`, where the per-iteration dict lookups
can raise `KeyError`. -/
def map_except {α β : Type} (f : α → Except String β) : List α → Except String (List β)
  | [] => .ok []
  | a :: l => do
    let b ← f a
    let bs ← map_except f l
    .ok (b :: bs)

/-- `RentHouseSpider.parse_integer`: parse an integer out of `value`, and on
`ValueError`/`TypeError` log `无效的整数值: {value}` and return 0.  The second
component is the list of warnings the call logs. -/
def parse_integer (value : Option String) : Int × List String :=
  match python_int_of value with
  | some n => (n, [])
  | none => (0, ["无效的整数值: " ++ value_repr value])

/-- `RentHouseSpider.should_subdivide`:
`total_pages == 100 or total_houses > 3000`. -/
def should_subdivide (total_pages total_houses : Int) : Bool :=
  total_pages == 100 || decide (total_houses > 3000)

/-- `RentHouseSpider.max_price_pages`: `8 if city == "sh" else 7`. -/
def max_price_pages (city : String) : Int :=
  if city == "sh" then 8 else 7

/-- `RentHouseSpider.base_url`: `f"https://{city}.lianjia.com"`. -/
def spider_base_url (city : String) : String :=
  "https://" ++ city ++ ".lianjia.com"

/-- `RentHouseSpider.get_price_regex`: `(rp[1-8])` for Shanghai, `(rp[1-7])`
otherwise, as (literal part, character class). -/
def get_price_regex (city : String) : List Char × List Char :=
  if city == "sh" then (['r', 'p'], "12345678".data) else (['r', 'p'], "1234567".data)

/-- `RentHouseSpider.get_room_regex`: `(l[0-3])`. -/
def get_room_regex : List Char × List Char :=
  (['l'], "0123".data)

/-- `RentHouseSpider.get_direction_regex`: `(f10050000000[15379])`. -/
def get_direction_regex : List Char × List Char :=
  ("f10050000000".data, "15379".data)

/-- `RentHouseSpider.get_floor_regex`: `(lc20050000000[123])`. -/
def get_floor_regex : List Char × List Char :=
  ("lc20050000000".data, "123".data)

/-- `RentHouseSpider.get_room_type_list`: `[f"l{i}" for i in range(0, 4)]`. -/
def get_room_type_list : List String :=
  (List.range 4).map (fun i => "l" ++ toString i)

/-- `RentHouseSpider.get_direction_list`. -/
def get_direction_list : List String :=
  ["f100500000001", "f100500000005", "f100500000003", "f100500000007", "f100500000009"]

/-- `RentHouseSpider.get_floor_list`. -/
def get_floor_list : List String :=
  ["lc200500000003", "lc200500000002", "lc200500000001"]

/-- The f-string body of `get_price_url` applied to an already-formatted value:
`f"{base_url}rp{v}/"`.  This is the function object stored under
`url_modifier` in the `area` row of the dispatch table, where values are
formatted dynamically. -/
def get_price_url_str (base_url v : String) : String :=
  base_url ++ "rp" ++ v ++ "/"

/-- `RentHouseSpider.get_price_url`: `f"{base_url}rp{page_number}/"`. -/
def get_price_url (base_url : String) (page_number : Int) : String :=
  get_price_url_str base_url (toString page_number)

/-- `RentHouseSpider.get_room_url`: search `(l[0-3])` in `base_url`; on a match
return `f"{base_url.split(room_identifier, 1)[0]}{room_type}{room_identifier}/"`,
otherwise log a warning and return `base_url` unchanged. -/
def get_room_url (base_url room_type : String) : String :=
  match re_search get_room_regex.1 get_room_regex.2 base_url.data with
  | some (_, room_identifier, _) =>
    String.mk (split_first room_identifier base_url.data) ++ room_type ++
      String.mk room_identifier ++ "/"
  | none => base_url

/-- `RentHouseSpider.get_direction_url`: same shape as `get_room_url`, over the
direction pattern `(f10050000000[15379])`. -/
def get_direction_url (base_url direction : String) : String :=
  match re_search get_direction_regex.1 get_direction_regex.2 base_url.data with
  | some (_, direction_identifier, _) =>
    String.mk (split_first direction_identifier base_url.data) ++ direction ++
      String.mk direction_identifier ++ "/"
  | none => base_url

/-- `RentHouseSpider.get_floor_url`: same shape as `get_room_url`, over the
floor pattern `(lc20050000000[123])`. -/
def get_floor_url (base_url floor : String) : String :=
  match re_search get_floor_regex.1 get_floor_regex.2 base_url.data with
  | some (_, floor_identifier, _) =>
    String.mk (split_first floor_identifier base_url.data) ++ floor ++
      String.mk floor_identifier ++ "/"
  | none => base_url

/-- Modelled from the spec (for comparison only, no source counterpart):
"locates the first occurrence of the level's anchor pattern in the URL and
replaces just that token with the new value, preserving everything before and
after it"; unchanged when the anchor is absent. -/
def replace_first_token (lit cls : List Char) (base value : String) : String :=
  match re_search lit cls base.data with
  | some (pre, _, rest) => String.mk pre ++ value ++ String.mk rest
  | none => base

/-- A request the spider yields: either a subdivision request whose callback is
`parse_level` with `meta={'level': …}` (issued with `dont_filter=True`), or a
terminal data-page request whose callback is `parse_data`. -/
inductive Request where
  | levelReq (url : String) (level : String)
  | dataReq (url : String)
deriving DecidableEq, Repr

/-- A fetched summary response as `parse_level` sees it: its URL, the
`meta['level']` of the request that produced it, the two raw xpath strings the
count extractors read (`None` embedded as `none`), and the area link list that
`extract_area_urls`'s xpath would return. -/
structure Response where
  url : String
  level : String
  total_pages_str : Option String
  total_houses_str : Option String
  area_urls : List String
deriving Repr

/-- `RentHouseSpider.extract_area_urls` (the xpath query is embedded as the
response's `area_urls` field). -/
def extract_area_urls (response : Response) : List String :=
  response.area_urls

/-- `RentHouseSpider.get_page_info` composed with `extract_total_pages` and
`extract_total_houses`: parse the two counts out of the response. -/
def get_page_info (response : Response) : Int × Int :=
  ((parse_integer response.total_pages_str).1, (parse_integer response.total_houses_str).1)

/-- `RentHouseSpider.handle_pagination`: when `total_pages` is truthy, one
`parse_data` request per page `1..total_pages` at `f"{base_url}pg{n}/"`;
otherwise no requests and the warning `{base_url} 没有找到分页数据`. -/
def handle_pagination (base_url : String) (total_pages : Int) : List Request × List String :=
  if total_pages ≠ 0 then
    ((int_range 1 (total_pages + 1)).map
        (fun page_number => Request.dataReq (base_url ++ "pg" ++ toString page_number ++ "/")),
      [])
  else
    ([], [base_url ++ " 没有找到分页数据"])

/-- One row of the `subdivision_hierarchy` dict in `parse_level`.  A field is
`none` exactly when the corresponding key is absent from that row's dict, so a
lookup of an absent key is a `KeyError`. -/
structure LevelEntry where
  should_subdivide : Bool := false
  next_level : Option String := none
  extract_urls : Option (Response → List String) := none
  url_modifier : Option (String → String → String) := none
  patterns : Option (List Char × List Char) := none
  max_pages : Option Int := none
  list : Option (List String) := none

/-- The `subdivision_hierarchy` dict literal of `parse_level` (lines 38–74),
including `.get(current_level, {})` for unknown levels. -/
def subdivision_hierarchy (city : String) (total_pages total_houses : Int) :
    String → LevelEntry := fun level =>
  if level == "city" then
    { should_subdivide := should_subdivide total_pages total_houses,
      next_level := some "area",
      extract_urls := some extract_area_urls }
  else if level == "area" then
    { should_subdivide := should_subdivide total_pages total_houses,
      next_level := some "price",
      url_modifier := some get_price_url_str,
      max_pages := some (max_price_pages city) }
  else if level == "price" then
    { should_subdivide := should_subdivide total_pages total_houses,
      next_level := some "room",
      url_modifier := some get_room_url,
      patterns := some (get_price_regex city),
      list := some get_room_type_list }
  else if level == "room" then
    { should_subdivide := should_subdivide total_pages total_houses,
      next_level := some "direction",
      url_modifier := some get_direction_url,
      patterns := some get_room_regex,
      list := some get_direction_list }
  else if level == "direction" then
    { should_subdivide := should_subdivide total_pages total_houses,
      next_level := some "floor",
      url_modifier := some get_floor_url,
      patterns := some get_direction_regex,
      list := some get_floor_list }
  else if level == "floor" then
    { should_subdivide := false }
  else
    {}

/-- `RentHouseSpider.parse_level` (lines 28–96): look up the current level's
row, and either fan out child requests (area links for `city`, a numeric range
when `current_level == 'price'`, otherwise the row's value list) or fall back
to pagination.  Dict lookups of absent keys raise `KeyError`, embedded as
`.error`; the yielded requests are collected in order. -/
def parse_level (city : String) (response : Response) : Except String (List Request) :=
  let total_pages := (get_page_info response).1
  let current_subdivision := subdivision_hierarchy city total_pages (get_page_info response).2 response.level
  if current_subdivision.should_subdivide then
    match current_subdivision.next_level with
    | none => .error "KeyError: 'next_level'"
    | some next_level =>
      match current_subdivision.extract_urls with
      | some extractor =>
        .ok ((extractor response).map
          (fun url => Request.levelReq (spider_base_url city ++ url) next_level))
      | none =>
        if current_subdivision.url_modifier.isSome then
          if response.level == "price" then
            match current_subdivision.max_pages with
            | none => .error "KeyError: 'max_pages'"
            | some mp =>
              map_except (fun i =>
                  match current_subdivision.url_modifier with
                  | some modifier =>
                    .ok (Request.levelReq (modifier response.url (toString i)) next_level)
                  | none => .error "KeyError: 'url_modifier'")
                (int_range 1 (mp + 1))
          else
            match current_subdivision.list with
            | none => .error "KeyError: 'list'"
            | some items =>
              map_except (fun item =>
                  match current_subdivision.url_modifier with
                  | some modifier =>
                    .ok (Request.levelReq (modifier response.url item) next_level)
                  | none => .error "KeyError: 'url_modifier'")
                items
        else
          .ok []
  else
    .ok (handle_pagination response.url total_pages).1

/-- A scrapy request as the middlewares see it: its URL, the three retry meta
keys this code uses (`meta.get(key, 0)` makes an absent key equal to 0), and
the `dont_filter` flag. -/
structure MwRequest where
  url : String
  retry_count : Int := 0
  retry_times : Int := 0
  retry_attempts : Int := 0
  dont_filter : Bool := false
deriving DecidableEq, Repr

/-- A downloaded response as the middlewares see it: HTTP status, URL, and the
raw xpath result for the `content__title--hl` total-count marker. -/
structure MwResponse where
  status : Int
  url : String
  total_count_str : Option String := none
deriving DecidableEq, Repr

/-- Result of `RedirectRetryMiddleware.handle_redirect_response`: either the
response object itself is returned to the caller, or a retry request is
resubmitted. -/
inductive RedirectOutcome where
  | passResponse (response : MwResponse)
  | retryRequest (request : MwRequest)
deriving DecidableEq, Repr

/-- scrapy's `RetryMiddleware._retry` (library code this middleware inherits):
reads the `retry_times` meta key, and while `retry_times + 1` does not exceed
`max_retry_times` returns a copy of the request with `retry_times`
incremented and `dont_filter` set; otherwise gives up and returns `None`. -/
def scrapy_retry (max_retry_times : Int) (request : MwRequest) : Option MwRequest :=
  let retries := request.retry_times + 1
  if retries ≤ max_retry_times then
    some { request with retry_times := retries, dont_filter := true }
  else none

/-- `RedirectRetryMiddleware.handle_redirect_response` (middlewares.py lines
14–41): on a 301/302 response, give up and return the response once
`retry_count >= max_retries`, else resubmit a copy with `retry_count + 1`
through `self._retry(...) or response`; every other status is returned
unchanged. -/
def handle_redirect_response (max_retry_times : Int) (request : MwRequest)
    (response : MwResponse) : RedirectOutcome :=
  if response.status = 301 ∨ response.status = 302 then
    let retry_count := request.retry_count
    if retry_count ≥ max_retry_times then
      .passResponse response
    else
      let new_request := { request with retry_count := retry_count + 1 }
      match scrapy_retry max_retry_times new_request with
      | some r => .retryRequest r
      | none => .passResponse response
  else
    .passResponse response

/-- The configuration of `TotalCountRetryMiddleware`: `RETRY_TIMES` and
`FORCE_RETRY_URLS`. -/
structure TotalCountConfig where
  retry_attempts : Int
  force_retry_urls : List String
deriving DecidableEq, Repr

/-- Result of `TotalCountRetryMiddleware.handle_missing_total_count`: the
response is accepted, a retry request is resubmitted, or `IgnoreRequest` is
raised (a fatal failure for this request only). -/
inductive TotalCountOutcome where
  | passResponse (response : MwResponse)
  | retryRequest (request : MwRequest)
  | ignoreRequest (reason : String)
deriving DecidableEq, Repr

/-- Python truthiness of the xpath result `total_count_str` (`None` and the
empty string are falsy). -/
def total_count_present (response : MwResponse) : Bool :=
  match response.total_count_str with
  | some s => s ≠ ""
  | none => false

/-- `TotalCountRetryMiddleware._retry_request`: a copy of the request with
`retry_attempts + 1` and `dont_filter = True`. -/
def retry_request_tc (request : MwRequest) (retry_attempts : Int) : MwRequest :=
  { request with retry_attempts := retry_attempts + 1, dont_filter := true }

/-- `TotalCountRetryMiddleware.handle_missing_total_count` (middlewares.py
lines 61–96): raise on a captcha URL; accept a response carrying the
total-count marker; otherwise retry unconditionally for allow-listed URLs,
retry while the budget allows for the rest, and raise `IgnoreRequest` once it
is exhausted. -/
def handle_missing_total_count (cfg : TotalCountConfig) (request : MwRequest)
    (response : MwResponse) : TotalCountOutcome :=
  if contains_sub "captcha".data response.url.data then
    .ignoreRequest ("Captcha detected for " ++ request.url)
  else if total_count_present response then
    .passResponse response
  else
    let retry_attempts := request.retry_attempts
    if request.url ∈ cfg.force_retry_urls then
      .retryRequest (retry_request_tc request retry_attempts)
    else if retry_attempts < cfg.retry_attempts then
      .retryRequest (retry_request_tc request retry_attempts)
    else
      .ignoreRequest ("Missing total_count_str after " ++ toString retry_attempts ++ " retries")


theorem starts_with_append (pat t : List Char) : starts_with pat (pat ++ t) = true := by
  induction pat with
  | nil => rfl
  | cons a l ih => simp [starts_with, ih]

theorem starts_with_eq_append {pat s : List Char} (h : starts_with pat s = true) :
    ∃ t, s = pat ++ t := by
  induction pat generalizing s with
  | nil => exact ⟨s, rfl⟩
  | cons a l ih =>
    cases s with
    | nil => simp [starts_with] at h
    | cons b s =>
      simp only [starts_with, Bool.and_eq_true, beq_iff_eq] at h
      obtain ⟨t, ht⟩ := ih h.2
      exact ⟨t, by simp [h.1, ht]⟩

theorem split_first_append_self (sep t : List Char) : split_first sep (sep ++ t) = [] := by
  cases h : sep ++ t with
  | nil => simp [split_first]
  | cons c s =>
    rw [split_first]
    rw [if_pos (h ▸ starts_with_append sep t)]

theorem match_at_some {lit cls s tok rest : List Char}
    (h : match_at lit cls s = some (tok, rest)) :
    (∃ c, c ∈ cls ∧ tok = lit ++ [c]) ∧ s = tok ++ rest := by
  unfold match_at at h
  split at h
  · rename_i hs
    split at h
    · rename_i c rest0 hdrop
      split at h
      · rename_i hc
        obtain ⟨t, ht⟩ := starts_with_eq_append hs
        subst ht
        rw [List.drop_left] at hdrop
        subst hdrop
        simp only [Option.some.injEq, Prod.mk.injEq] at h
        obtain ⟨htok, hrest⟩ := h
        subst htok; subst hrest
        exact ⟨⟨c, hc, rfl⟩, by simp⟩
      · exact absurd h (by simp)
    · exact absurd h (by simp)
  · exact absurd h (by simp)

theorem match_at_of_append {cls : List Char} {c : Char} (lit t : List Char)
    (hc : c ∈ cls) : match_at lit cls (lit ++ [c] ++ t) = some (lit ++ [c], t) := by
  unfold match_at
  rw [List.append_assoc]
  rw [if_pos (starts_with_append lit ([c] ++ t))]
  rw [List.drop_left]
  simp [hc]

theorem re_search_spec {lit cls : List Char} (s : List Char) :
    ∀ {pre tok rest : List Char}, re_search lit cls s = some (pre, tok, rest) →
      s = pre ++ tok ++ rest ∧ (∃ c, c ∈ cls ∧ tok = lit ++ [c]) ∧
        split_first tok s = pre := by
  induction s with
  | nil => intro pre tok rest h; simp [re_search] at h
  | cons a s ih =>
    intro pre tok rest h
    rw [re_search] at h
    split at h
    · rename_i tok0 rest0 heq
      simp only [Option.some.injEq, Prod.mk.injEq] at h
      obtain ⟨hpre, htok, hrest⟩ := h
      subst hpre; subst htok; subst hrest
      obtain ⟨hform, hdecomp⟩ := match_at_some heq
      refine ⟨by simpa using hdecomp, hform, ?_⟩
      rw [hdecomp]
      exact split_first_append_self tok0 rest0
    · rename_i heq
      split at h
      · rename_i pre0 tok0 rest0 heq2
        simp only [Option.some.injEq, Prod.mk.injEq] at h
        obtain ⟨hpre, htok, hrest⟩ := h
        subst hpre; subst htok; subst hrest
        obtain ⟨hdecomp, hform, hsplit⟩ := ih heq2
        obtain ⟨c, hc, htokform⟩ := hform
        have hnpre : ¬ starts_with tok0 (a :: s) = true := by
          intro hcon
          obtain ⟨t, ht⟩ := starts_with_eq_append hcon
          rw [htokform] at ht
          have hma := match_at_of_append lit t hc
          rw [← ht, ← htokform] at hma
          rw [hma] at heq
          exact absurd heq (by simp)
        refine ⟨by simp [hdecomp], ⟨c, hc, htokform⟩, ?_⟩
        rw [split_first]
        rw [if_neg hnpre, hsplit]
      · exact absurd h (by simp)

theorem int_range_length (a b : Int) : (int_range a b).length = (b - a).toNat := by
  unfold int_range
  rw [List.length_map, List.length_range]

theorem map_except_ok {α β : Type} (f : α → Except String β) (g : α → β) (l : List α)
    (h : ∀ a ∈ l, f a = .ok (g a)) : map_except f l = .ok (l.map g) := by
  induction l with
  | nil => rfl
  | cons a l ih =>
    simp only [map_except]
    rw [h a (List.mem_cons_self a l), ih (fun x hx => h x (List.mem_cons_of_mem a hx))]
    rfl

theorem hierarchy_room (city : String) (p h : Int) :
    subdivision_hierarchy city p h "room" =
      { should_subdivide := should_subdivide p h,
        next_level := some "direction",
        url_modifier := some get_direction_url,
        patterns := some get_room_regex,
        list := some get_direction_list } := rfl

/-- Claim C1: `should_subdivide total_pages total_houses` is true exactly when
`total_pages = 100` or `total_houses > 3000`, for every pair of integers; the
`floor` row of the subdivision hierarchy carries an unconditional
`should_subdivide = false`, so at the floor level `parse_level` never
subdivides and always falls through to pagination, whatever the parsed
counts. -/
theorem should_subdivide_spec : ∀ (p h : Int),
    (should_subdivide p h = true ↔ (p = 100 ∨ 3000 < h)) ∧
    (∀ (city : String), (subdivision_hierarchy city p h "floor").should_subdivide = false) ∧
    (∀ (city : String) (r : Response), r.level = "floor" →
      parse_level city r = .ok (handle_pagination r.url (get_page_info r).1).1) := by
  intro p h
  refine ⟨?_, fun _ => rfl, ?_⟩
  · simp [should_subdivide]
  · intro city r hl
    obtain ⟨url, level, tp, th, au⟩ := r
    simp only at hl
    subst hl
    rfl

/-- Witness for C1 at concrete inputs. -/
theorem should_subdivide_spec_w :
    should_subdivide 100 0 = true ∧
    parse_level "tj" ⟨"u/", "floor", some "0", some "99", []⟩ =
      .ok (handle_pagination "u/"
        (get_page_info ⟨"u/", "floor", some "0", some "99", []⟩).1).1 :=
  ⟨(should_subdivide_spec 100 0).1.mpr (Or.inl rfl),
   (should_subdivide_spec 0 99).2.2 "tj" ⟨"u/", "floor", some "0", some "99", []⟩ rfl⟩

/-- Claim C2: contrary to the claimed fan-out, subdividing an `area`-level node
raises `KeyError: 'list'` (the `area` row has no `list` key) and subdividing a
`price`-level node raises `KeyError: 'max_pages'` (the `price` row has no
`max_pages` key), because the dispatch in `parse_level` tests
`current_level == 'price'` where the row contents require the test to be
against `'area'`; the city-level fan-out (one child per scraped area link)
does behave as claimed. -/
theorem parse_level_keyerror :
    parse_level "tj"
      { url := "https://tj.lianjia.com/zufang/hedong/", level := "area",
        total_pages_str := some "100", total_houses_str := some "5000", area_urls := [] } =
      .error "KeyError: 'list'" ∧
    parse_level "tj"
      { url := "https://tj.lianjia.com/zufang/hedong/rp3/", level := "price",
        total_pages_str := some "100", total_houses_str := some "5000", area_urls := [] } =
      .error "KeyError: 'max_pages'" ∧
    parse_level "tj"
      { url := "https://tj.lianjia.com/zufang/", level := "city",
        total_pages_str := some "100", total_houses_str := some "8000",
        area_urls := ["/zufang/hedong/", "/zufang/nankai/"] } =
      .ok [Request.levelReq "https://tj.lianjia.com/zufang/hedong/" "area",
           Request.levelReq "https://tj.lianjia.com/zufang/nankai/" "area"] :=
  ⟨rfl, rfl, rfl⟩

/-- Claim C3 counterexample: `get_room_url` is not a first-occurrence token
replacement — on `"a/l2bc"` it produces `"a/l1l2/"` rather than the
replacement `"a/l1bc"` — and applying it twice with the same value changes the
URL again, so the claimed idempotence also fails. -/
theorem get_room_url_not_replacement :
    get_room_url "a/l2bc" "l1" ≠
      replace_first_token get_room_regex.1 get_room_regex.2 "a/l2bc" "l1" ∧
    get_room_url (get_room_url "a/l2bc" "l1") "l1" ≠ get_room_url "a/l2bc" "l1" := by
  constructor <;> decide

/-- Claim C3 amended: for every level strictly below `area`, when the level's
anchor pattern occurs in the base URL (leftmost match splitting it as
`pre ++ tok ++ rest`), the mutator keeps the prefix before the anchor, inserts
the new value immediately before the anchor token, keeps the anchor token,
discards everything after it, and appends `"/"` — an insertion plus
truncation, not an idempotent replacement. -/
theorem token_mutators_insert :
    ∀ (base value : String) (pre tok rest : List Char),
    (re_search get_room_regex.1 get_room_regex.2 base.data = some (pre, tok, rest) →
      get_room_url base value = String.mk pre ++ value ++ String.mk tok ++ "/" ∧
      base.data = pre ++ tok ++ rest) ∧
    (re_search get_direction_regex.1 get_direction_regex.2 base.data = some (pre, tok, rest) →
      get_direction_url base value = String.mk pre ++ value ++ String.mk tok ++ "/" ∧
      base.data = pre ++ tok ++ rest) ∧
    (re_search get_floor_regex.1 get_floor_regex.2 base.data = some (pre, tok, rest) →
      get_floor_url base value = String.mk pre ++ value ++ String.mk tok ++ "/" ∧
      base.data = pre ++ tok ++ rest) := by
  intro base value pre tok rest
  refine ⟨fun h => ?_, fun h => ?_, fun h => ?_⟩ <;>
    obtain ⟨hdec, -, hsplit⟩ := re_search_spec base.data h
  · exact ⟨by simp only [get_room_url, h, hsplit], hdec⟩
  · exact ⟨by simp only [get_direction_url, h, hsplit], hdec⟩
  · exact ⟨by simp only [get_floor_url, h, hsplit], hdec⟩

/-- Witness for the amended C3 at concrete inputs, one per mutator. -/
theorem token_mutators_insert_w :
    (get_room_url "a/l2b" "x" = String.mk ['a', '/'] ++ "x" ++ String.mk ['l', '2'] ++ "/" ∧
      ("a/l2b" : String).data = ['a', '/'] ++ ['l', '2'] ++ ['b']) ∧
    (get_direction_url "y/f100500000005z" "w" =
        String.mk ['y', '/'] ++ "w" ++ String.mk "f100500000005".data ++ "/" ∧
      ("y/f100500000005z" : String).data = ['y', '/'] ++ "f100500000005".data ++ ['z']) ∧
    (get_floor_url "y/lc200500000002z" "w" =
        String.mk ['y', '/'] ++ "w" ++ String.mk "lc200500000002".data ++ "/" ∧
      ("y/lc200500000002z" : String).data = ['y', '/'] ++ "lc200500000002".data ++ ['z']) :=
  ⟨(token_mutators_insert "a/l2b" "x" ['a', '/'] ['l', '2'] ['b']).1 (by decide),
   (token_mutators_insert "y/f100500000005z" "w" ['y', '/'] "f100500000005".data ['z']).2.1
     (by decide),
   (token_mutators_insert "y/lc200500000002z" "w" ['y', '/'] "lc200500000002".data ['z']).2.2
     (by decide)⟩

/-- Claim C4 counterexample: at a room-level node whose URL lacks the direction
anchor, the walker does not skip the unchanged URLs — it yields five child
requests (one per direction value) all fetching the parent's own URL. -/
theorem parse_level_parent_url_requests :
    parse_level "tj"
      { url := "https://tj.lianjia.com/zufang/rp3/", level := "room",
        total_pages_str := some "100", total_houses_str := some "3500", area_urls := [] } =
      .ok (List.replicate 5
        (Request.levelReq "https://tj.lianjia.com/zufang/rp3/" "direction")) := rfl

/-- Claim C4 amended: when the anchor pattern is absent from the base URL the
mutator does return the URL unchanged (for every value), but the walker does
not treat that as a skip signal — at a subdividing room-level node it yields
one child request per direction value, each fetching the parent's own URL
(with the duplicate filter disabled). -/
theorem parse_level_unchanged_url_children :
    ∀ (city : String) (r : Response),
    r.level = "room" →
    re_search get_direction_regex.1 get_direction_regex.2 r.url.data = none →
    should_subdivide (get_page_info r).1 (get_page_info r).2 = true →
    (∀ d, get_direction_url r.url d = r.url) ∧
    parse_level city r =
      .ok (get_direction_list.map (fun _ => Request.levelReq r.url "direction")) := by
  intro city r hl hre hs
  have hmut : ∀ d, get_direction_url r.url d = r.url := by
    intro d
    unfold get_direction_url
    rw [hre]
  refine ⟨hmut, ?_⟩
  obtain ⟨url, level, tp, th, au⟩ := r
  simp only at hl
  subst hl
  dsimp only [get_page_info] at hs
  dsimp only at hmut
  have hbp : (("room" : String) == "price") = false := rfl
  simp only [parse_level, get_page_info, hierarchy_room, hs, if_true, Option.isSome_some, hbp,
    Bool.false_eq_true, if_false]
  exact map_except_ok _ (fun _ => Request.levelReq url "direction") get_direction_list
    (fun a _ => by simp [hmut a])

/-- Witness for the amended C4 at a concrete room-level node. -/
theorem parse_level_unchanged_url_children_w :
    get_direction_url "u/" "f100500000001" = "u/" ∧
    parse_level "tj"
      { url := "u/", level := "room",
        total_pages_str := some "100", total_houses_str := some "0", area_urls := [] } =
      .ok (get_direction_list.map (fun _ => Request.levelReq "u/" "direction")) :=
  ⟨(parse_level_unchanged_url_children "tj"
      { url := "u/", level := "room",
        total_pages_str := some "100", total_houses_str := some "0", area_urls := [] }
      rfl (by decide) (by decide)).1 "f100500000001",
   (parse_level_unchanged_url_children "tj"
      { url := "u/", level := "room",
        total_pages_str := some "100", total_houses_str := some "0", area_urls := [] }
      rfl (by decide) (by decide)).2⟩

/-- Claim C5: for a summary response that lacks the total-count marker and is
not a captcha page, an allow-listed request URL is resubmitted with its
missing-summary counter incremented whatever that counter already is; any
other URL is resubmitted only while the counter is strictly below the
configured budget, and once the budget is exhausted the request fails fatally
(`IgnoreRequest`), producing neither a response nor a retry — so no children
are ever scheduled for that node. -/
theorem handle_missing_total_count_spec :
    ∀ (cfg : TotalCountConfig) (request : MwRequest) (response : MwResponse),
    contains_sub "captcha".data response.url.data = false →
    total_count_present response = false →
    ((request.url ∈ cfg.force_retry_urls →
        handle_missing_total_count cfg request response =
          .retryRequest { request with retry_attempts := request.retry_attempts + 1,
                                       dont_filter := true }) ∧
     (request.url ∉ cfg.force_retry_urls →
        (request.retry_attempts < cfg.retry_attempts →
          handle_missing_total_count cfg request response =
            .retryRequest { request with retry_attempts := request.retry_attempts + 1,
                                         dont_filter := true }) ∧
        (cfg.retry_attempts ≤ request.retry_attempts →
          handle_missing_total_count cfg request response =
            .ignoreRequest ("Missing total_count_str after " ++
              toString request.retry_attempts ++ " retries")))) := by
  intro cfg request response hcap hmiss
  unfold handle_missing_total_count
  rw [hcap, hmiss]
  simp only [Bool.false_eq_true, if_false]
  constructor
  · intro hmem
    rw [if_pos hmem]
    rfl
  · intro hmem
    rw [if_neg hmem]
    constructor
    · intro hlt
      rw [if_pos hlt]
      rfl
    · intro hge
      rw [if_neg (by omega)]

/-- Witness for C5: an allow-listed URL retries past the budget, a
non-allow-listed URL past the budget fails fatally. -/
theorem handle_missing_total_count_spec_w :
    handle_missing_total_count ⟨2, ["f"]⟩ { url := "f", retry_attempts := 9 }
        { status := 200, url := "ok", total_count_str := none } =
      .retryRequest { url := "f", retry_attempts := 10, dont_filter := true } ∧
    handle_missing_total_count ⟨2, ["f"]⟩ { url := "g", retry_attempts := 9 }
        { status := 200, url := "ok", total_count_str := none } =
      .ignoreRequest ("Missing total_count_str after " ++ toString (9 : Int) ++ " retries") :=
  ⟨(handle_missing_total_count_spec ⟨2, ["f"]⟩ { url := "f", retry_attempts := 9 }
      { status := 200, url := "ok", total_count_str := none } (by decide) rfl).1
      (by decide),
   ((handle_missing_total_count_spec ⟨2, ["f"]⟩ { url := "g", retry_attempts := 9 }
      { status := 200, url := "ok", total_count_str := none } (by decide) rfl).2
      (by decide)).2 (by decide)⟩

/-- Claim C6 counterexample: a 307 response is a 3xx redirect with retry budget
remaining (0 < 3), yet `handle_redirect_response` passes it through instead of
resubmitting a retry — only 301 and 302 are ever retried. -/
theorem redirect_3xx_not_retried :
    (300 : Int) ≤ 307 ∧ (307 : Int) < 400 ∧ (0 : Int) < 3 ∧
    handle_redirect_response 3 { url := "u" } { status := 307, url := "u" } =
      .passResponse { status := 307, url := "u" } :=
  ⟨by decide, by decide, by decide, rfl⟩

/-- Claim C6 amended: for a 301 or 302 response (not every 3xx), once the
redirect retry count has reached the maximum the response is passed through
unmodified; below the maximum a copy of the request is resubmitted with the
redirect counter incremented (scrapy's own retry counter moves in lockstep and
`dont_filter` is set); every other status passes through unchanged. -/
theorem handle_redirect_response_spec :
    ∀ (max_retry_times : Int) (request : MwRequest) (response : MwResponse),
    request.retry_times = request.retry_count →
    ((response.status = 301 ∨ response.status = 302) →
      (max_retry_times ≤ request.retry_count →
        handle_redirect_response max_retry_times request response = .passResponse response) ∧
      (request.retry_count < max_retry_times →
        handle_redirect_response max_retry_times request response =
          .retryRequest { request with retry_count := request.retry_count + 1,
                                       retry_times := request.retry_count + 1,
                                       dont_filter := true })) ∧
    (response.status ≠ 301 → response.status ≠ 302 →
      handle_redirect_response max_retry_times request response = .passResponse response) := by
  intro m request response hsync
  constructor
  · intro hst
    constructor
    · intro hge
      unfold handle_redirect_response
      rw [if_pos hst, if_pos (by omega)]
    · intro hlt
      unfold handle_redirect_response
      rw [if_pos hst, if_neg (by omega)]
      unfold scrapy_retry
      simp only [hsync]
      rw [if_pos (by omega)]
  · intro h1 h2
    unfold handle_redirect_response
    rw [if_neg (by simp [h1, h2])]

/-- Witness for the amended C6: a 301 below budget is retried with both
counters incremented, a 302 over budget passes through, a 200 passes
through. -/
theorem handle_redirect_response_spec_w :
    handle_redirect_response 2 { url := "u", retry_count := 1, retry_times := 1 }
        { status := 301, url := "u" } =
      .retryRequest { url := "u", retry_count := 2, retry_times := 2, dont_filter := true } ∧
    handle_redirect_response 2 { url := "u", retry_count := 5, retry_times := 5 }
        { status := 302, url := "u" } =
      .passResponse { status := 302, url := "u" } ∧
    handle_redirect_response 2 { url := "u" } { status := 200, url := "u" } =
      .passResponse { status := 200, url := "u" } :=
  ⟨((handle_redirect_response_spec 2 { url := "u", retry_count := 1, retry_times := 1 }
      { status := 301, url := "u" } rfl).1 (Or.inl rfl)).2 (by decide),
   ((handle_redirect_response_spec 2 { url := "u", retry_count := 5, retry_times := 5 }
      { status := 302, url := "u" } rfl).1 (Or.inr rfl)).1 (by decide),
   (handle_redirect_response_spec 2 { url := "u" }
      { status := 200, url := "u" } rfl).2 (by decide) (by decide)⟩

/-- Claim C7: a summary response whose URL contains the captcha marker fails
fatally at once — `handle_missing_total_count` raises `IgnoreRequest` for
every counter value and marker state, producing no retry request (so neither
retry counter is ever incremented for it); and the redirect handler leaves
such a non-redirect response untouched. -/
theorem captcha_fatal :
    ∀ (cfg : TotalCountConfig) (request : MwRequest) (response : MwResponse)
      (max_retry_times : Int),
    contains_sub "captcha".data response.url.data = true →
    handle_missing_total_count cfg request response =
      .ignoreRequest ("Captcha detected for " ++ request.url) ∧
    (response.status ≠ 301 → response.status ≠ 302 →
      handle_redirect_response max_retry_times request response = .passResponse response) := by
  intro cfg request response m hcap
  constructor
  · unfold handle_missing_total_count
    rw [if_pos hcap]
  · intro h1 h2
    unfold handle_redirect_response
    rw [if_neg (by simp [h1, h2])]

/-- Witness for C7 at a concrete captcha response (marker even present). -/
theorem captcha_fatal_w :
    handle_missing_total_count ⟨2, []⟩ { url := "u" }
        { status := 200, url := "a-captcha-b", total_count_str := some "33" } =
      .ignoreRequest ("Captcha detected for " ++ "u") ∧
    handle_redirect_response 5 { url := "u" }
        { status := 200, url := "a-captcha-b", total_count_str := some "33" } =
      .passResponse { status := 200, url := "a-captcha-b", total_count_str := some "33" } :=
  ⟨(captcha_fatal ⟨2, []⟩ { url := "u" }
      { status := 200, url := "a-captcha-b", total_count_str := some "33" } 5 (by decide)).1,
   (captcha_fatal ⟨2, []⟩ { url := "u" }
      { status := 200, url := "a-captcha-b", total_count_str := some "33" } 5 (by decide)).2
      (by decide) (by decide)⟩

/-- Claim C8: for a terminal node, positive `total_pages` yields exactly one
`parse_data` request per page `1..total_pages`, each URL the node's URL with
the `pg{n}/` suffix appended, and no warning; `total_pages = 0` yields no
requests and one warning naming the node's URL, with no error raised. -/
theorem handle_pagination_spec : ∀ (base_url : String) (n : Int), 0 < n →
    (handle_pagination base_url n).1 =
      (int_range 1 (n + 1)).map
        (fun k => Request.dataReq (base_url ++ "pg" ++ toString k ++ "/")) ∧
    ((handle_pagination base_url n).1).length = n.toNat ∧
    (handle_pagination base_url n).2 = [] ∧
    handle_pagination base_url 0 = ([], [base_url ++ " 没有找到分页数据"]) := by
  intro base_url n hn
  have hne : n ≠ 0 := by omega
  have h1 : (handle_pagination base_url n).1 =
      (int_range 1 (n + 1)).map
        (fun k => Request.dataReq (base_url ++ "pg" ++ toString k ++ "/")) := by
    simp [handle_pagination, hne]
  refine ⟨h1, ?_, ?_, ?_⟩
  · rw [h1, List.length_map, int_range_length]
    omega
  · simp [handle_pagination, hne]
  · simp [handle_pagination]

/-- Witness for C8 at two pages and at zero pages. -/
theorem handle_pagination_spec_w :
    (handle_pagination "b/" 2).1 = [Request.dataReq "b/pg1/", Request.dataReq "b/pg2/"] ∧
    handle_pagination "b/" 0 = ([], ["b/" ++ " 没有找到分页数据"]) :=
  ⟨((handle_pagination_spec "b/" 2 (by decide)).1).trans (by decide),
   (handle_pagination_spec "b/" 2 (by decide)).2.2.2⟩

/-- Claim C9: `parse_integer` is total — for every input (a missing value or
any string) it returns an integer: the parsed value with no warning when
`int()` succeeds, and 0 together with the logged warning when `int()` raises
`ValueError`/`TypeError`; no error propagates to the caller. -/
theorem parse_integer_total : ∀ (value : Option String),
    (python_int_of value = none →
      parse_integer value = (0, ["无效的整数值: " ++ value_repr value])) ∧
    (∀ n : Int, python_int_of value = some n → parse_integer value = (n, [])) := by
  intro value
  constructor
  · intro h
    unfold parse_integer
    rw [h]
  · intro n h
    unfold parse_integer
    rw [h]

/-- Witness for C9: a malformed string, a well-formed padded string, and a
missing value. -/
theorem parse_integer_total_w :
    parse_integer (some "x1") = (0, ["无效的整数值: " ++ value_repr (some "x1")]) ∧
    parse_integer (some " 42 ") = (42, []) ∧
    parse_integer none = (0, ["无效的整数值: " ++ value_repr none]) :=
  ⟨(parse_integer_total (some "x1")).1 (by decide),
   (parse_integer_total (some " 42 ")).2 42 (by decide),
   (parse_integer_total none).1 rfl⟩

/-- Claim C10: `get_price_url` is an unconditional append — for every base URL
and band index it returns the base followed by `rp`, the decimal digits of the
index, and `/`; it never returns its input unchanged, and applying it twice
yields a URL carrying two price tokens. -/
theorem get_price_url_spec : ∀ (base_url : String) (n : Int),
    get_price_url base_url n = base_url ++ "rp" ++ toString n ++ "/" ∧
    get_price_url base_url n ≠ base_url ∧
    get_price_url (get_price_url base_url n) n =
      base_url ++ "rp" ++ toString n ++ "/" ++ "rp" ++ toString n ++ "/" := by
  intro base_url n
  refine ⟨rfl, ?_, rfl⟩
  intro hcon
  have hlen := congrArg String.length hcon
  simp only [get_price_url, get_price_url_str, String.length_append,
    show ("rp" : String).length = 2 from rfl, show ("/" : String).length = 1 from rfl] at hlen
  omega

/-- Witness for C10 at a concrete base URL and band index. -/
theorem get_price_url_spec_w :
    get_price_url "a/" 3 = "a/" ++ "rp" ++ toString (3 : Int) ++ "/" ∧
    get_price_url (get_price_url "a/" 3) 3 =
      "a/" ++ "rp" ++ toString (3 : Int) ++ "/" ++ "rp" ++ toString (3 : Int) ++ "/" :=
  ⟨(get_price_url_spec "a/" 3).1, (get_price_url_spec "a/" 3).2.2⟩
